import Mathlib

/-!
Verification of horizon/dashboards/syspanel/projects/views.py
(tenant/project administration views of the Horizon dashboard).

The views are shallowly embedded: each view method becomes a pure Lean
function of the request data (URL kwargs) and of the results of the
external identity/compute API calls it makes.  An API call result is an
`Except PyExc _` value: `Except.ok` models a successful return and
`Except.error` models the call raising an exception.

Side effects of a view method are made explicit in its return type:

* `ViewResult α`: the method finishes normally with a value (`ok`),
  terminates the request with a redirect (`redirect`), or lets an
  exception propagate uncaught (`raised`).  Both `ok` and `redirect`
  carry the `ViewEffects` produced along the way: user-facing flash
  messages and step-scoped workflow form errors.

* Methods that memoize on `self` (`_get_shared_data`, `get_object`)
  additionally take and return their cache slot explicitly, plus a
  counter of external API calls issued during the invocation.

Framework pieces that live elsewhere in the repository (not under the
fragment given) are modelled from the spec where they matter:

* `exceptions.handle(request, msg)` (no redirect): records the flash
  message `msg` and lets the view continue (spec section 7).
* `exceptions.handle(request, msg, redirect=url)`: records the flash
  message and terminates the request by redirecting to `url`
  (spec section 7: "redirects to a safe parent listing page").
* `WorkflowView.get_initial` / `ModalFormView.get_form_kwargs` base
  implementations: return an empty initial mapping (spec section 4:
  the endpoint itself maps named fields into initial form state).

Python `list.sort` is a stable sort; it is modelled by Mathlib's stable
`List.insertionSort`, which is extensionally the same function.
Identifiers (`id` attributes) are modelled as naturals with their order
standing in for the Python comparison on the real id values.
-/

/-- A Python exception, identified by its message. -/
abbrev PyExc := String

/-- A Python value as it appears in form-initial dictionaries:
the Python constant None, a string, an integer, or a boolean. -/
inductive PyVal where
  | none
  | str (s : String)
  | int (n : Int)
  | bool (b : Bool)
deriving DecidableEq, Repr

/-- A remote API object with dynamically looked-up attributes:
a partial map from attribute name to value.  Absent attributes model
attributes the fetched object does not carry. -/
def ApiObject := String → Option PyVal

/-- Python getattr with default None: the value of attribute f on o,
or the Python constant None when o has no such attribute. -/
def getattrD (o : ApiObject) (f : String) : PyVal :=
  (o f).getD PyVal.none

/-- An API object with no attributes at all. -/
def emptyObj : ApiObject := fun _ => Option.none

/-- A Python dictionary with string keys, as an association list;
the most recent binding of a key shadows earlier ones. -/
abbrev Dict := List (String × PyVal)

/-- Python dictionary assignment d[k] = v. -/
def dictSet (d : Dict) (k : String) (v : PyVal) : Dict :=
  (k, v) :: d

/-- Python dictionary lookup d[k] (None-free: yields Option). -/
def dictGet (d : Dict) (k : String) : Option PyVal :=
  match d with
  | [] => Option.none
  | (k1, v) :: t => if k1 == k then some v else dictGet t k

/-- A keystone tenant (project): id plus its displayed attributes. -/
structure Tenant where
  id : Nat
  name : String
deriving DecidableEq, Repr

/-- A keystone user: id plus its displayed attributes. -/
structure User where
  id : Nat
  name : String
deriving DecidableEq, Repr

/-- A keystone role. -/
structure Role where
  id : Nat
  name : String
deriving DecidableEq, Repr

/-- User-visible side effects accumulated by a view method: flash
messages, and step-scoped workflow form errors as (message, step slug)
pairs recorded by add_error_to_step. -/
structure ViewEffects where
  flash : List String
  stepErrors : List (String × String)
deriving DecidableEq, Repr

/-- No side effects. -/
def noEff : ViewEffects := ⟨[], []⟩

/-- Outcome of a view method: a normal return, a redirect terminating
the request, or an exception propagating uncaught out of the method. -/
inductive ViewResult (α : Type) where
  | ok (eff : ViewEffects) (val : α)
  | redirect (eff : ViewEffects) (target : String)
  | raised (exc : PyExc)
deriving DecidableEq, Repr

/-- True when the outcome is an exception propagating uncaught. -/
def ViewResult.propagatesUncaught : ViewResult α → Bool
  | .raised _ => true
  | _ => false

/-- True when the outcome surfaces an error as a step-scoped validation
error on the form: the view continues and has recorded a step error. -/
def ViewResult.surfacedAsStepError : ViewResult α → Bool
  | .ok eff _ => !eff.stepErrors.isEmpty
  | _ => false

/-- URL name of the projects index page, the safe parent listing. -/
def projectsIndexUrl : String := "horizon:syspanel:projects:index"

/-- URL name of the per-tenant users page, parameterized by tenant id. -/
def projectsUsersUrl (tenant_id : String) : String :=
  "horizon:syspanel:projects:users/" ++ tenant_id

/-- Python stable descending sort of tenants by id:
tenants.sort(key=lambda x: x.id, reverse=True). -/
def sortTenantsDesc (l : List Tenant) : List Tenant :=
  l.insertionSort (fun a b => b.id ≤ a.id)

/-- Python stable ascending sort of roles by id:
roles.sort(key=operator.attrgetter("id")). -/
def sortRolesAsc (l : List Role) : List Role :=
  l.insertionSort (fun a b => a.id ≤ b.id)

namespace IndexView

/-- get_data of IndexView: start from an empty tenant list, try the
tenant_list API call; on failure record the flash message
"Unable to retrieve project list." and continue; finally sort by id
descending and return. -/
def get_data (tenantListRes : Except PyExc (List Tenant)) :
    ViewResult (List Tenant) :=
  match tenantListRes with
  | .ok tenants => .ok noEff (sortTenantsDesc tenants)
  | .error _ =>
      .ok ⟨["Unable to retrieve project list."], []⟩ (sortTenantsDesc [])

end IndexView

namespace TenantContextMixin

/-- get_object of TenantContextMixin: memoized on self._object.  On a
cache hit the cached tenant is returned without an API call; otherwise
tenant_get is tried; on failure exceptions.handle flashes
"Unable to retrieve project information." and redirects to the projects
index.  Returns the outcome, the new cache slot, and the number of API
calls issued. -/
def get_object (cache : Option Tenant)
    (tenantGetRes : Except PyExc Tenant) :
    ViewResult Tenant × Option Tenant × Nat :=
  match cache with
  | some t => (.ok noEff t, some t, 0)
  | Option.none =>
      match tenantGetRes with
      | .ok t => (.ok noEff t, some t, 1)
      | .error _ =>
          (.redirect ⟨["Unable to retrieve project information."], []⟩
             projectsIndexUrl, Option.none, 1)

end TenantContextMixin

namespace UsersView

/-- The request-scoped cache self._shared_data: the tenant and the two
user collections fetched together. -/
structure SharedData where
  tenant : Tenant
  all_users : List User
  tenant_users : List User
deriving DecidableEq, Repr

/-- The core of get_add_users_data, as a function of the two fetched
collections: the ids of the tenant users are collected and the all-users
list is filtered to those whose id is not among them. -/
def get_add_users_data (tenant_users all_users : List User) : List User :=
  let tenant_user_ids := tenant_users.map User.id
  all_users.filter (fun u => !(tenant_user_ids.contains u.id))

/-- Modelled from the spec: the set-difference the spec describes,
"candidates-minus-members by identity key" — the all-users collection
minus the users already in the tenant, membership decided by user id. -/
def specAddableUsers (all_users tenant_users : List User) : List User :=
  all_users.filter (fun u => decide (∀ t ∈ tenant_users, t.id ≠ u.id))

/-- The _get_shared_data method: memoized on self._shared_data.  On a
cache hit the cached record is returned with no API calls.  Otherwise
tenant_get, user_list and user_list(tenant) are issued in order inside
one try block; if one fails, exceptions.handle flashes
"Unable to retrieve users." and redirects to the projects index.
Returns the outcome, the new cache slot, and the number of API calls
issued during this invocation. -/
def _get_shared_data (cache : Option SharedData)
    (tenantGetRes : Except PyExc Tenant)
    (userListRes : Except PyExc (List User))
    (tenantUserListRes : Except PyExc (List User)) :
    ViewResult SharedData × Option SharedData × Nat :=
  match cache with
  | some d => (.ok noEff d, some d, 0)
  | Option.none =>
      match tenantGetRes with
      | .error _ =>
          (.redirect ⟨["Unable to retrieve users."], []⟩ projectsIndexUrl,
           Option.none, 1)
      | .ok tenant =>
          match userListRes with
          | .error _ =>
              (.redirect ⟨["Unable to retrieve users."], []⟩ projectsIndexUrl,
               Option.none, 2)
          | .ok all_users =>
              match tenantUserListRes with
              | .error _ =>
                  (.redirect ⟨["Unable to retrieve users."], []⟩
                     projectsIndexUrl, Option.none, 3)
              | .ok tenant_users =>
                  let d : SharedData := ⟨tenant, all_users, tenant_users⟩
                  (.ok noEff d, some d, 3)

/-- get_tenant_users_data: reads the tenant_users component of the
shared data. -/
def get_tenant_users_data (cache : Option SharedData)
    (r1 : Except PyExc Tenant) (r2 r3 : Except PyExc (List User)) :
    ViewResult (List User) × Option SharedData × Nat :=
  match _get_shared_data cache r1 r2 r3 with
  | (.ok eff d, c, n) => (.ok eff d.tenant_users, c, n)
  | (.redirect eff u, c, n) => (.redirect eff u, c, n)
  | (.raised e, c, n) => (.raised e, c, n)

/-- get_add_users_data as the view calls it: reads tenant_users and
all_users from the shared data and filters. -/
def get_add_users_data_view (cache : Option SharedData)
    (r1 : Except PyExc Tenant) (r2 r3 : Except PyExc (List User)) :
    ViewResult (List User) × Option SharedData × Nat :=
  match _get_shared_data cache r1 r2 r3 with
  | (.ok eff d, c, n) => (.ok eff (get_add_users_data d.tenant_users d.all_users), c, n)
  | (.redirect eff u, c, n) => (.redirect eff u, c, n)
  | (.raised e, c, n) => (.raised e, c, n)

/-- get_context_data: puts the tenant component of the shared data into
the template context. -/
def get_context_data (cache : Option SharedData)
    (r1 : Except PyExc Tenant) (r2 r3 : Except PyExc (List User)) :
    ViewResult Tenant × Option SharedData × Nat :=
  match _get_shared_data cache r1 r2 r3 with
  | (.ok eff d, c, n) => (.ok eff d.tenant, c, n)
  | (.redirect eff u, c, n) => (.redirect eff u, c, n)
  | (.raised e, c, n) => (.raised e, c, n)

end UsersView

namespace AddUserView

/-- get_form_kwargs of AddUserView: the base kwargs are extended with
the role list.  role_list is tried; on failure exceptions.handle
flashes "Unable to retrieve roles." and redirects to the users page of
the tenant.  On success the roles are sorted ascending by id. -/
def get_form_kwargs (tenant_id : String)
    (roleListRes : Except PyExc (List Role)) :
    ViewResult (List Role) :=
  match roleListRes with
  | .error _ =>
      .redirect ⟨["Unable to retrieve roles."], []⟩
        (projectsUsersUrl tenant_id)
  | .ok roles => .ok noEff (sortRolesAsc roles)

/-- get_initial of AddUserView: calls get_default_role with no
try/except around it, so a failure of that API call propagates out of
the method; on success it builds the initial dictionary with tenant_id,
user_id and the id attribute of the default role (None when absent). -/
def get_initial (tenant_id user_id : String)
    (defaultRoleRes : Except PyExc ApiObject) : ViewResult Dict :=
  match defaultRoleRes with
  | .error e => .raised e
  | .ok role =>
      .ok noEff
        (dictSet
          (dictSet (dictSet [] "tenant_id" (.str tenant_id))
            "user_id" (.str user_id))
          "role_id" (getattrD role "id"))

end AddUserView

/-- QUOTA_FIELDS from the module: the nine quota field names. -/
def QUOTA_FIELDS : List String :=
  ["metadata_items", "cores", "instances", "injected_files",
   "injected_file_content_bytes", "volumes", "gigabytes", "ram",
   "floating_ips"]

/-- PROJECT_INFO_FIELDS from the module. -/
def PROJECT_INFO_FIELDS : List String :=
  ["name", "description", "enabled"]

/-- Copies each named field from a fetched API object into the
dictionary: for field in fields: d[field] = getattr(obj, field, None). -/
def copyFields (d : Dict) (obj : ApiObject) (fields : List String) : Dict :=
  fields.foldl (fun m f => dictSet m f (getattrD obj f)) d

namespace CreateProjectView

/-- get_initial of CreateProjectView: the base initial mapping (empty,
modelled from the spec) is extended with the nine quota defaults from
tenant_quota_defaults; on failure add_error_to_step records the error
"Unable to retrieve default quota values." on step update_quotas and
the view continues, returning the initial mapping unchanged. -/
def get_initial (quotaDefaultsRes : Except PyExc ApiObject) :
    ViewResult Dict :=
  match quotaDefaultsRes with
  | .ok qd => .ok noEff (copyFields [] qd QUOTA_FIELDS)
  | .error _ =>
      .ok ⟨[], [("Unable to retrieve default quota values.", "update_quotas")]⟩
        []

end CreateProjectView

namespace UpdateProjectView

/-- get_initial of UpdateProjectView: the base initial mapping (empty,
modelled from the spec) first receives project_id from the URL kwargs;
then, in one try block, tenant_get fills the three project-info fields
and tenant_quota_get fills the nine quota fields; on any failure
exceptions.handle flashes "Unable to retrieve project details." and
redirects to the projects index. -/
def get_initial (tenant_id : String)
    (projectInfoRes quotaRes : Except PyExc ApiObject) : ViewResult Dict :=
  let base := dictSet [] "project_id" (.str tenant_id)
  match projectInfoRes with
  | .error _ =>
      .redirect ⟨["Unable to retrieve project details."], []⟩ projectsIndexUrl
  | .ok info =>
      let withInfo := copyFields base info PROJECT_INFO_FIELDS
      match quotaRes with
      | .error _ =>
          .redirect ⟨["Unable to retrieve project details."], []⟩
            projectsIndexUrl
      | .ok quota => .ok noEff (copyFields withInfo quota QUOTA_FIELDS)

end UpdateProjectView

instance : IsTotal Tenant (fun a b => b.id ≤ a.id) :=
  ⟨fun a b => Nat.le_total b.id a.id⟩

instance : IsTrans Tenant (fun a b => b.id ≤ a.id) :=
  ⟨fun _ _ _ h1 h2 => Nat.le_trans h2 h1⟩

instance : IsTotal Role (fun a b => a.id ≤ b.id) :=
  ⟨fun a b => Nat.le_total a.id b.id⟩

instance : IsTrans Role (fun a b => a.id ≤ b.id) :=
  ⟨fun _ _ _ h1 h2 => Nat.le_trans h1 h2⟩

/-- C2: for every collection of tenants returned by the identity API,
IndexView.get_data returns normally a list that is sorted by tenant id
in descending order and is a permutation of the fetched collection. -/
theorem index_get_data_sorted_desc (tenants : List Tenant) :
    ∃ ts, IndexView.get_data (.ok tenants) = .ok noEff ts ∧
      ts.Sorted (fun a b => b.id ≤ a.id) ∧ List.Perm ts tenants :=
  ⟨_, rfl, List.sorted_insertionSort _ tenants, List.perm_insertionSort _ tenants⟩

/-- C3: when the tenant_list API call fails, IndexView.get_data does not
raise: it returns normally, reports the user-facing error message
"Unable to retrieve project list.", and yields the empty collection. -/
theorem index_get_data_failure_empty (e : PyExc) :
    IndexView.get_data (.error e) =
      .ok ⟨["Unable to retrieve project list."], []⟩ [] :=
  rfl

/-- C1 counterexample: when the fetched all-users collection itself
contains a duplicate entry, the addable-users list computed by
get_add_users_data contains that duplicate as well, so the no-duplicates
part of the claim fails as stated. -/
theorem get_add_users_data_duplicates_cex :
    UsersView.get_add_users_data [] [⟨1, "a"⟩, ⟨1, "a"⟩] =
      [⟨1, "a"⟩, ⟨1, "a"⟩] ∧
    ¬ (UsersView.get_add_users_data [] [⟨1, "a"⟩, ⟨1, "a"⟩]).Nodup := by
  exact ⟨rfl, by decide⟩

/-- C1 amended: the addable-users list equals the all-users collection
minus the users already in the tenant, membership decided by user id;
and whenever the fetched all-users collection has no duplicates, the
result has no duplicates either. -/
theorem get_add_users_data_spec_diff (tenant_users all_users : List User) :
    UsersView.get_add_users_data tenant_users all_users =
      UsersView.specAddableUsers all_users tenant_users ∧
    (all_users.Nodup →
      (UsersView.get_add_users_data tenant_users all_users).Nodup) := by
  constructor
  · unfold UsersView.get_add_users_data UsersView.specAddableUsers
    apply List.filter_congr
    intro u _
    rw [Bool.eq_iff_iff]
    simp [List.mem_map]
  · intro h
    exact h.filter _

/-- Witness for the amended C1 at a concrete input. -/
theorem get_add_users_data_spec_diff_witness :
    UsersView.get_add_users_data [⟨1, "a"⟩] [⟨1, "a"⟩, ⟨2, "b"⟩] =
      UsersView.specAddableUsers [⟨1, "a"⟩, ⟨2, "b"⟩] [⟨1, "a"⟩] ∧
    (UsersView.get_add_users_data [⟨1, "a"⟩] [⟨1, "a"⟩, ⟨2, "b"⟩]).Nodup :=
  ⟨(get_add_users_data_spec_diff [⟨1, "a"⟩] [⟨1, "a"⟩, ⟨2, "b"⟩]).1,
   (get_add_users_data_spec_diff [⟨1, "a"⟩] [⟨1, "a"⟩, ⟨2, "b"⟩]).2 (by decide)⟩

/-- C9: get_add_users_data preserves order: for every pair of fetched
collections, the addable-users result is a subsequence of the all-users
collection, so its users appear in the same relative order. -/
theorem get_add_users_data_preserves_order (tenant_users all_users : List User) :
    List.Sublist (UsersView.get_add_users_data tenant_users all_users)
      all_users :=
  List.filter_sublist all_users

/-- C7: the shared fetch of UsersView is performed at most once per
request.  A first successful call to _get_shared_data issues the three
API calls and fills the cache; with the cache filled, _get_shared_data
returns the cached record and issues zero API calls whatever the API
would now answer, and get_tenant_users_data, get_add_users_data and
get_context_data all observe exactly the components of that one fetched
record. -/
theorem shared_data_memoized (t : Tenant) (us tus : List User)
    (r1 : Except PyExc Tenant) (r2 r3 : Except PyExc (List User)) :
    UsersView._get_shared_data Option.none (.ok t) (.ok us) (.ok tus) =
      (.ok noEff ⟨t, us, tus⟩, some ⟨t, us, tus⟩, 3) ∧
    UsersView._get_shared_data (some ⟨t, us, tus⟩) r1 r2 r3 =
      (.ok noEff ⟨t, us, tus⟩, some ⟨t, us, tus⟩, 0) ∧
    UsersView.get_tenant_users_data (some ⟨t, us, tus⟩) r1 r2 r3 =
      (.ok noEff tus, some ⟨t, us, tus⟩, 0) ∧
    UsersView.get_add_users_data_view (some ⟨t, us, tus⟩) r1 r2 r3 =
      (.ok noEff (UsersView.get_add_users_data tus us), some ⟨t, us, tus⟩, 0) ∧
    UsersView.get_context_data (some ⟨t, us, tus⟩) r1 r2 r3 =
      (.ok noEff t, some ⟨t, us, tus⟩, 0) :=
  ⟨rfl, rfl, rfl, rfl, rfl⟩

/-- C8: for every collection of roles returned by the identity API,
AddUserView.get_form_kwargs passes the AddUser form a role list that is
sorted by role id in ascending order and is a permutation of the
fetched collection. -/
theorem add_user_form_kwargs_roles_sorted (tenant_id : String)
    (roles : List Role) :
    ∃ sr, AddUserView.get_form_kwargs tenant_id (.ok roles) = .ok noEff sr ∧
      sr.Sorted (fun a b => a.id ≤ b.id) ∧ List.Perm sr roles :=
  ⟨_, rfl, List.sorted_insertionSort _ roles, List.perm_insertionSort _ roles⟩

/-- C4 counterexample: the default-role fetch in AddUserView.get_initial
is not wrapped in any try/except, so its failure propagates out of the
view method as an uncaught exception, with no flash message and no
redirect. -/
theorem add_user_get_initial_uncaught_cex :
    (AddUserView.get_initial "t1" "u1" (.error "boom")).propagatesUncaught
      = true ∧
    AddUserView.get_initial "t1" "u1" (.error "boom") = .raised "boom" :=
  ⟨rfl, rfl⟩

/-- C4 amended: for every view operation in this module except
AddUserView.get_initial, every failure of an external API call made by
it is caught broadly and converted to a user-facing message — a flash
message, except CreateProjectView.get_initial which records a
step-scoped form error — and the view either continues with empty data
or redirects to a parent listing page; the default-role fetch in
AddUserView.get_initial is the one API call whose failure propagates
uncaught. -/
theorem api_failures_handled_amended (e : PyExc) (tenant_id : String)
    (t : Tenant) (us : List User) (r2 r3 : Except PyExc (List User))
    (info : ApiObject) (qr : Except PyExc ApiObject) :
    TenantContextMixin.get_object Option.none (.error e) =
      (.redirect ⟨["Unable to retrieve project information."], []⟩
        projectsIndexUrl, Option.none, 1) ∧
    IndexView.get_data (.error e) =
      .ok ⟨["Unable to retrieve project list."], []⟩ [] ∧
    UsersView._get_shared_data Option.none (.error e) r2 r3 =
      (.redirect ⟨["Unable to retrieve users."], []⟩ projectsIndexUrl,
       Option.none, 1) ∧
    UsersView._get_shared_data Option.none (.ok t) (.error e) r3 =
      (.redirect ⟨["Unable to retrieve users."], []⟩ projectsIndexUrl,
       Option.none, 2) ∧
    UsersView._get_shared_data Option.none (.ok t) (.ok us) (.error e) =
      (.redirect ⟨["Unable to retrieve users."], []⟩ projectsIndexUrl,
       Option.none, 3) ∧
    AddUserView.get_form_kwargs tenant_id (.error e) =
      .redirect ⟨["Unable to retrieve roles."], []⟩
        (projectsUsersUrl tenant_id) ∧
    CreateProjectView.get_initial (.error e) =
      .ok ⟨[], [("Unable to retrieve default quota values.",
        "update_quotas")]⟩ [] ∧
    UpdateProjectView.get_initial tenant_id (.error e) qr =
      .redirect ⟨["Unable to retrieve project details."], []⟩
        projectsIndexUrl ∧
    UpdateProjectView.get_initial tenant_id (.ok info) (.error e) =
      .redirect ⟨["Unable to retrieve project details."], []⟩
        projectsIndexUrl :=
  ⟨rfl, rfl, rfl, rfl, rfl, rfl, rfl, rfl, rfl⟩

/-- C5: when the project-info and quota fetches both succeed,
UpdateProjectView.get_initial returns normally and the initial mapping
binds each of the three project-info fields to the value of that
attribute on the fetched project-info object and each of the nine quota
fields to the value of that attribute on the fetched quota object, an
attribute absent on the fetched object yielding the Python constant
None. -/
theorem update_get_initial_fields (tenant_id : String)
    (info quota : ApiObject) :
    ∃ m, UpdateProjectView.get_initial tenant_id (.ok info) (.ok quota) =
        .ok noEff m ∧
      dictGet m "name" = some ((info "name").getD PyVal.none) ∧
      dictGet m "description" = some ((info "description").getD PyVal.none) ∧
      dictGet m "enabled" = some ((info "enabled").getD PyVal.none) ∧
      dictGet m "metadata_items" =
        some ((quota "metadata_items").getD PyVal.none) ∧
      dictGet m "cores" = some ((quota "cores").getD PyVal.none) ∧
      dictGet m "instances" = some ((quota "instances").getD PyVal.none) ∧
      dictGet m "injected_files" =
        some ((quota "injected_files").getD PyVal.none) ∧
      dictGet m "injected_file_content_bytes" =
        some ((quota "injected_file_content_bytes").getD PyVal.none) ∧
      dictGet m "volumes" = some ((quota "volumes").getD PyVal.none) ∧
      dictGet m "gigabytes" = some ((quota "gigabytes").getD PyVal.none) ∧
      dictGet m "ram" = some ((quota "ram").getD PyVal.none) ∧
      dictGet m "floating_ips" =
        some ((quota "floating_ips").getD PyVal.none) :=
  ⟨_, rfl, rfl, rfl, rfl, rfl, rfl, rfl, rfl, rfl, rfl, rfl, rfl, rfl⟩

/-- C6 counterexample: a failure of the project-info fetch in
UpdateProjectView.get_initial is not surfaced as a step-scoped
validation error on the form: it is surfaced as a flash message with a
redirect to the projects index. -/
theorem update_get_initial_not_step_error_cex :
    (UpdateProjectView.get_initial "42" (.error "boom")
        (.ok emptyObj)).surfacedAsStepError = false ∧
    UpdateProjectView.get_initial "42" (.error "boom") (.ok emptyObj) =
      .redirect ⟨["Unable to retrieve project details."], []⟩
        projectsIndexUrl :=
  ⟨rfl, rfl⟩

/-- C6 amended: CreateProjectView.get_initial surfaces a fetch failure
as a step-scoped validation error on the update_quotas step and
continues; UpdateProjectView.get_initial instead surfaces it as a flash
message and redirects to the projects index. -/
theorem prefill_failure_treatment_amended (e : PyExc) (tenant_id : String)
    (info : ApiObject) (qr : Except PyExc ApiObject) :
    (CreateProjectView.get_initial (.error e)).surfacedAsStepError = true ∧
    CreateProjectView.get_initial (.error e) =
      .ok ⟨[], [("Unable to retrieve default quota values.",
        "update_quotas")]⟩ [] ∧
    (UpdateProjectView.get_initial tenant_id (.error e) qr).surfacedAsStepError
      = false ∧
    UpdateProjectView.get_initial tenant_id (.error e) qr =
      .redirect ⟨["Unable to retrieve project details."], []⟩
        projectsIndexUrl ∧
    (UpdateProjectView.get_initial tenant_id (.ok info)
        (.error e)).surfacedAsStepError = false ∧
    UpdateProjectView.get_initial tenant_id (.ok info) (.error e) =
      .redirect ⟨["Unable to retrieve project details."], []⟩
        projectsIndexUrl :=
  ⟨rfl, rfl, rfl, rfl, rfl, rfl⟩

/-- C10: whenever UpdateProjectView.get_initial returns normally, the
initial mapping binds project_id to the tenant_id taken from the URL
kwargs, whatever the outcomes of the two API fetches. -/
theorem update_get_initial_project_id (tenant_id : String)
    (r q : Except PyExc ApiObject) (eff : ViewEffects) (m : Dict)
    (h : UpdateProjectView.get_initial tenant_id r q = .ok eff m) :
    dictGet m "project_id" = some (.str tenant_id) := by
  cases r with
  | error e => exact absurd h (by simp [UpdateProjectView.get_initial])
  | ok info =>
    cases q with
    | error e => exact absurd h (by simp [UpdateProjectView.get_initial])
    | ok quota =>
      obtain ⟨h1, h2⟩ := ViewResult.ok.inj h
      subst h2
      rfl

/-- Witness for C10 at a concrete input. -/
theorem update_get_initial_project_id_witness :
    dictGet
      [("floating_ips", PyVal.none), ("ram", PyVal.none),
       ("gigabytes", PyVal.none), ("volumes", PyVal.none),
       ("injected_file_content_bytes", PyVal.none),
       ("injected_files", PyVal.none), ("instances", PyVal.none),
       ("cores", PyVal.none), ("metadata_items", PyVal.none),
       ("enabled", PyVal.none), ("description", PyVal.none),
       ("name", PyVal.none), ("project_id", PyVal.str "42")]
      "project_id" = some (.str "42") :=
  update_get_initial_project_id "42" (.ok emptyObj) (.ok emptyObj) noEff _ rfl
